import Mathlib

/-!
Shallow embedding of the MemoryLayerSaver plugin's lifecycle coordinator
(`src/MemoryLayerSaver/memory_layer_saver.py` and
`src/MemoryLayerSaver/layer_connector.py`).

The coordinator's process-local state is `SaverState` (the
`has_modified_layers` dirty flag plus the set of per-layer signal
connections made by `connect_layer`).  The host project's state visible to
this subsystem is `ProjectState` (file name, attached files, map layers,
project dirty flag).  Environmental facts outside the subsystem — the QGIS
version, whether a file exists on disk, whether the external Reader/Writer
components raise — live in `Env`.  I/O and UI side effects are recorded as
an `Eff` trace; an exception escaping a handler is an `Except.error`
result, while a caught exception shows up as a `messageBox` effect on an
`Except.ok` result.
-/

/-- The six per-layer post-commit mutation signals wired in
`MemoryLayerSaver.connect_layer`, in the source's connect order. -/
inductive MutationKind where
  | attributesDeleted
  | attributesAdded
  | featuresRemoved
  | featuresAdded
  | attributeValuesChanges
  | geometriesChanges
deriving DecidableEq, Repr

/-- A host layer, referenced not owned: its stable identifier and the
verdict of the external eligibility predicate `Settings.is_saved_layer`
on it (the predicate is external policy, so we carry its boolean result). -/
structure Layer where
  id : Nat
  isSaved : Bool
deriving DecidableEq, Repr

/-- `Settings.is_saved_layer(layer)`: external black-box eligibility
predicate, consumed as-is. -/
def is_saved_layer (l : Layer) : Bool :=
  l.isSaved

/-- Host project state visible to the subsystem:
`QgsProject.instance().fileName()`, `attachedFiles()`, `mapLayers()` and
the project's own dirty flag (`isDirty`/`setDirty`). -/
structure ProjectState where
  fileName : String
  attachedFiles : List String
  mapLayers : List Layer
  isDirty : Bool
deriving DecidableEq, Repr

/-- Process-local state of `MemoryLayerSaver`: the `has_modified_layers`
flag, and the set of `(layer id, mutation kind)` signal connections to
`set_project_dirty` made by `connect_layer`. -/
structure SaverState where
  has_modified_layers : Bool
  connections : List (Nat × MutationKind)
deriving DecidableEq, Repr

/-- Side effects performed by the handlers: Reader/Writer invocations on
the archive file, `createAttachedFile`, the error message box, and log
lines. -/
inductive Eff where
  | readArchive (filename : String)
  | writeArchive (filename : String)
  | createAttachedFile (name : String)
  | messageBox (title : String)
  | logMsg (m : String)
deriving DecidableEq, Repr

/-- Facts about the environment the code consults but does not own: the
host version (`Qgis.versionInt()`), file existence (`QFile.exists`), the
path the host assigns to a newly created attached file, and whether the
external Reader/Writer raise during this operation. -/
structure Env where
  qgisVersionInt : Nat
  fileExists : String → Bool
  attachmentDir : String
  readerRaises : Bool
  writerRaises : Bool

/-- Python's `str.endswith`, as a kernel-computable suffix test on the
character lists of the two strings. -/
def strEndsWith (a b : String) : Bool :=
  b.data.isSuffixOf a.data

/-- The `for attachment in ... attachedFiles(): if
attachment.endswith("layers.mldata"): return attachment` loop of
`memory_layer_file`. -/
def findAttachment : List String → Option String
  | [] => none
  | a :: rest =>
      if strEndsWith a "layers.mldata" then some a else findAttachment rest

/-- `MemoryLayerSaver.memory_layer_file`: empty string when the project
has no file name; otherwise, on hosts with attachment support
(version ≥ 32200), the first attached file ending in `layers.mldata`,
falling back to `<project file name>.mldata`. -/
def memory_layer_file (env : Env) (p : ProjectState) : String :=
  if p.fileName = "" then ""
  else if 32200 ≤ env.qgisVersionInt then
    match findAttachment p.attachedFiles with
    | some a => a
    | none => p.fileName ++ ".mldata"
  else p.fileName ++ ".mldata"

/-- `MemoryLayerSaver.memory_layers`: the layers of the project for which
the eligibility predicate holds. -/
def memory_layers (p : ProjectState) : List Layer :=
  p.mapLayers.filter is_saved_layer

/-- `MemoryLayerSaver.set_project_dirty`: sets `has_modified_layers` and
marks the host project dirty. -/
def set_project_dirty (s : SaverState) (p : ProjectState) :
    SaverState × ProjectState :=
  ({ s with has_modified_layers := true }, { p with isDirty := true })

/-- The six connections `connect_layer` makes for one layer. -/
def layerConnections (lid : Nat) : List (Nat × MutationKind) :=
  [(lid, MutationKind.attributesDeleted),
   (lid, MutationKind.attributesAdded),
   (lid, MutationKind.featuresRemoved),
   (lid, MutationKind.featuresAdded),
   (lid, MutationKind.attributeValuesChanges),
   (lid, MutationKind.geometriesChanges)]

/-- `MemoryLayerSaver.connect_layer`: for an eligible layer, connect all
six committed-mutation signals to `set_project_dirty` and set
`has_modified_layers` (the layer just entered the project, so the next
save must rewrite the archive). -/
def connect_layer (l : Layer) (s : SaverState) : SaverState :=
  if is_saved_layer l then
    { s with
      connections := layerConnections l.id ++ s.connections,
      has_modified_layers := true }
  else s

/-- `MemoryLayerSaver.disconnect_layer`: for an eligible layer, disconnect
its six signals and set `has_modified_layers` (the layer is leaving the
project, so the next save must rewrite the archive). -/
def disconnect_layer (l : Layer) (s : SaverState) : SaverState :=
  if is_saved_layer l then
    { s with
      connections := s.connections.filter (fun c => !(c.1 = l.id)),
      has_modified_layers := true }
  else s

/-- Delivery of one committed-mutation signal from layer `lid`: if that
signal is connected, `set_project_dirty` runs; otherwise nothing does. -/
def fire_mutation (lid : Nat) (k : MutationKind) (s : SaverState)
    (p : ProjectState) : SaverState × ProjectState :=
  if (lid, k) ∈ s.connections then set_project_dirty s p else (s, p)

/-- Host dispatch of the `layerWasAdded` signal: `LayerConnector.attach`
connects it to `connect_layer`, so adding a layer to the project runs
`connect_layer` on it. -/
def on_layer_added (l : Layer) (s : SaverState) : SaverState :=
  connect_layer l s

/-- Host dispatch of a layer being removed from the project:
`LayerConnector.attach` connects only `layerWasAdded` — no removal signal
of the project is connected to any handler, and `disconnect_layer` runs
only from `detach` at plugin unload — so the removal event reaches no
handler and the coordinator state is untouched. -/
def on_layer_removed (_l : Layer) (s : SaverState) : SaverState :=
  s

/-- `MemoryLayerSaver.load_data` (handler of `readProject`): resolve the
archive file; if it exists, and the eligible-layer list is nonempty, run
the Reader over it, catching any exception into a message box; finally
clear `has_modified_layers` unconditionally.  A raising Reader is caught,
so the result is always `Except.ok`. -/
def load_data (env : Env) (s : SaverState) (p : ProjectState) :
    Except String (SaverState × List Eff) :=
  let filename := memory_layer_file env p
  if env.fileExists filename then
    let layers := memory_layers p
    if layers.isEmpty then
      Except.ok ({ s with has_modified_layers := false },
        [Eff.logMsg ("Loading memory layers from " ++ filename)])
    else if env.readerRaises then
      Except.ok ({ s with has_modified_layers := false },
        [Eff.logMsg ("Loading memory layers from " ++ filename),
         Eff.readArchive filename,
         Eff.messageBox "Error reloading memory layers"])
    else
      Except.ok ({ s with has_modified_layers := false },
        [Eff.logMsg ("Loading memory layers from " ++ filename),
         Eff.readArchive filename])
  else
    Except.ok ({ s with has_modified_layers := false }, [])

/-- `QgsProject.createAttachedFile(name)`: the host creates a fresh
attached file whose path ends with `name` and records it in the
project's attachment list. -/
def createAttachedFile (env : Env) (p : ProjectState) (name : String) :
    ProjectState :=
  { p with attachedFiles := p.attachedFiles ++ [env.attachmentDir ++ name] }

/-- `MemoryLayerSaver.save_data` (handler of `writeProject`): return
immediately when `has_modified_layers` is unset; otherwise create the
project attachment on supporting hosts, resolve the archive file, and if
the eligible-layer list is nonempty run the Writer — with no surrounding
try/except, so a raising Writer escapes the handler (`Except.error`);
finally clear `has_modified_layers`. -/
def save_data (env : Env) (s : SaverState) (p : ProjectState) :
    Except String (SaverState × ProjectState × List Eff) :=
  if s.has_modified_layers = false then
    Except.ok (s, p, [])
  else
    let p1 := if 32200 ≤ env.qgisVersionInt then
        createAttachedFile env p "layers.mldata" else p
    let e1 : List Eff := if 32200 ≤ env.qgisVersionInt then
        [Eff.createAttachedFile "layers.mldata"] else []
    let filename := memory_layer_file env p1
    let layers := memory_layers p1
    if layers.isEmpty then
      Except.ok ({ s with has_modified_layers := false }, p1,
        e1 ++ [Eff.logMsg ("Saving memory layers to " ++ filename)])
    else if env.writerRaises then
      Except.error "Writer raised"
    else
      Except.ok ({ s with has_modified_layers := false }, p1,
        e1 ++ [Eff.logMsg ("Saving memory layers to " ++ filename),
               Eff.writeArchive filename])

/-- `MemoryLayerSaver.on_cleared` (handler of `cleared`): drop the dirty
flag. -/
def on_cleared (s : SaverState) : SaverState :=
  { s with has_modified_layers := false }

/-! ### Helper lemmas -/

theorem save_data_ok_hasFlag (env : Env) (s : SaverState) (p : ProjectState)
    (s2 : SaverState) (p2 : ProjectState) (effs : List Eff)
    (h : save_data env s p = Except.ok (s2, p2, effs)) :
    s2.has_modified_layers = false := by
  unfold save_data at h
  split at h
  · rename_i hf
    simp only [Except.ok.injEq, Prod.mk.injEq] at h
    rw [← h.1]
    exact hf
  · by_cases hv : 32200 ≤ env.qgisVersionInt
    all_goals simp only [hv, if_true, if_false, iff_true, iff_false] at h
    all_goals split at h
    all_goals try split at h
    all_goals
      first
        | (simp only [Except.ok.injEq, Prod.mk.injEq] at h; rw [← h.1])
        | simp at h

theorem load_data_shape (env : Env) (s : SaverState) (p : ProjectState) :
    ∃ effs, load_data env s p =
      Except.ok ({ s with has_modified_layers := false }, effs) := by
  unfold load_data
  by_cases h1 : env.fileExists (memory_layer_file env p) = true
  · by_cases h2 : (memory_layers p).isEmpty = true
    · simp only [h1, h2, if_true]
      exact ⟨_, rfl⟩
    · by_cases h3 : env.readerRaises = true
      · simp only [h1, h2, h3, if_true, if_false, Bool.false_eq_true]
        exact ⟨_, rfl⟩
      · simp only [h1, h2, h3, if_true, if_false, Bool.false_eq_true]
        exact ⟨_, rfl⟩
  · simp only [h1, if_false, Bool.false_eq_true]
    exact ⟨_, rfl⟩

theorem findAttachment_mem (l : List String) (a : String)
    (h : findAttachment l = some a) :
    a ∈ l ∧ strEndsWith a "layers.mldata" = true := by
  induction l with
  | nil => simp [findAttachment] at h
  | cons x xs ih =>
    unfold findAttachment at h
    by_cases hx : strEndsWith x "layers.mldata"
    · simp [hx] at h
      subst h
      exact ⟨List.mem_cons_self x xs, hx⟩
    · simp [hx] at h
      obtain ⟨h1, h2⟩ := ih h
      exact ⟨List.mem_cons_of_mem _ h1, h2⟩

theorem findAttachment_eq_none (l : List String)
    (h : ∀ a ∈ l, strEndsWith a "layers.mldata" = false) :
    findAttachment l = none := by
  induction l with
  | nil => rfl
  | cons x xs ih =>
    unfold findAttachment
    have hx := h x (List.mem_cons_self x xs)
    simp [hx]
    exact ih fun a ha => h a (List.mem_cons_of_mem _ ha)

/-! ### Concrete instances used by witnesses and counterexamples -/

/-- An environment: old host (no attachment support), every file exists,
neither Reader nor Writer raises. -/
def envW : Env := ⟨0, fun _ => true, "att/", false, false⟩

/-- Like `envW` but the Reader raises. -/
def envR : Env := ⟨0, fun _ => true, "att/", true, false⟩

/-- Like `envW` but the Writer raises. -/
def envWr : Env := ⟨0, fun _ => true, "att/", false, true⟩

/-- An environment where no file exists, on a recent host. -/
def envN : Env := ⟨33000, fun _ => false, "att/", false, false⟩

/-- An attachment-capable host where no file exists on disk. -/
def envV : Env := ⟨32200, fun _ => false, "att/", false, false⟩

/-- A project with one eligible layer. -/
def projW : ProjectState := ⟨"proj.qgs", [], [⟨1, true⟩], false⟩

/-- A project with no layers at all. -/
def projEmpty : ProjectState := ⟨"proj.qgs", [], [], false⟩

/-- A project whose single layer is not eligible. -/
def projNoEligible : ProjectState := ⟨"proj.qgs", [], [⟨2, false⟩], false⟩

/-- A project with no file name (never saved), one eligible layer and a
stray attachment. -/
def projN : ProjectState := ⟨"", ["x/layers.mldata"], [⟨1, true⟩], false⟩

/-- A project with an embedded `layers.mldata` attachment. -/
def projAtt : ProjectState := ⟨"p.qgs", ["x/layers.mldata", "y"], [], false⟩

/-- A project with attachments, none of them `layers.mldata`. -/
def projNoAtt : ProjectState := ⟨"p.qgs", ["y"], [], false⟩

/-- Coordinator state: clean, no connections. -/
def cleanS : SaverState := ⟨false, []⟩

/-- Coordinator state: dirty, no connections. -/
def dirtyS : SaverState := ⟨true, []⟩

/-- An eligible layer. -/
def layerW : Layer := ⟨1, true⟩

/-! ### Claims -/

/-- Claim C1: when the dirty state is Clean, a save request returns
immediately performing no I/O, and after any completed save request a
second save request with no intervening mutation is a complete no-op
(so the write operation runs at most once across the two calls). -/
theorem save_request_idempotent (env : Env) (s : SaverState)
    (p : ProjectState) :
    (s.has_modified_layers = false → save_data env s p = Except.ok (s, p, [])) ∧
    (∀ s2 p2 effs, save_data env s p = Except.ok (s2, p2, effs) →
      save_data env s2 p2 = Except.ok (s2, p2, [])) := by
  constructor
  · intro h
    unfold save_data
    simp [h]
  · intro s2 p2 effs h
    have h2 := save_data_ok_hasFlag env s p s2 p2 effs h
    unfold save_data
    simp [h2]

/-- Witness for C1: a clean-state save is a no-op, and the save following
a dirty-state save (which wrote `proj.qgs.mldata`) is a no-op. -/
theorem save_request_idempotent_witness :
    save_data envW cleanS projEmpty = Except.ok (cleanS, projEmpty, []) ∧
    save_data envW cleanS projW = Except.ok (cleanS, projW, []) :=
  ⟨(save_request_idempotent envW cleanS projEmpty).1 rfl,
   (save_request_idempotent envW dirtyS projW).2 cleanS projW
     [Eff.logMsg "Saving memory layers to proj.qgs.mldata",
      Eff.writeArchive "proj.qgs.mldata"] rfl⟩

/-- Counterexample to claim C2: the Reader raises during a load request
(the read was attempted and the error reported via message box), the state
was Dirty beforehand, and yet `load_data` resets the flag to Clean instead
of leaving it unchanged. -/
theorem load_error_clears_flag_counterexample :
    envR.readerRaises = true ∧
    dirtyS.has_modified_layers = true ∧
    load_data envR dirtyS projW =
      Except.ok (⟨false, []⟩,
        [Eff.logMsg "Loading memory layers from proj.qgs.mldata",
         Eff.readArchive "proj.qgs.mldata",
         Eff.messageBox "Error reloading memory layers"]) :=
  ⟨rfl, rfl, rfl⟩

/-- Claim C2 (amended): every load request resets the dirty flag to Clean
at its end, even when the Archive Reader raises (the error is caught and
reported) or when no read is performed at all; nothing else of the
coordinator state changes. -/
theorem load_always_clears_flag (env : Env) (s : SaverState)
    (p : ProjectState) :
    ∃ effs, load_data env s p =
      Except.ok ({ s with has_modified_layers := false }, effs) :=
  load_data_shape env s p

/-- Claim C8: `set_project_dirty` sets the coordinator dirty flag, marks
the host project itself dirty, and modifies nothing else of either
state. -/
theorem set_project_dirty_frame (s : SaverState) (p : ProjectState) :
    (set_project_dirty s p).1.has_modified_layers = true ∧
    (set_project_dirty s p).2.isDirty = true ∧
    (set_project_dirty s p).1.connections = s.connections ∧
    (set_project_dirty s p).2.fileName = p.fileName ∧
    (set_project_dirty s p).2.attachedFiles = p.attachedFiles ∧
    (set_project_dirty s p).2.mapLayers = p.mapLayers := by
  simp [set_project_dirty]

/-- Claim C9: a save request in the Dirty state with an empty
eligible-layer set writes no archive, yet still transitions the state to
Clean. -/
theorem save_empty_layers (env : Env) (s : SaverState) (p : ProjectState)
    (h1 : s.has_modified_layers = true) (h2 : memory_layers p = []) :
    ∃ p1 effs, save_data env s p =
      Except.ok ({ s with has_modified_layers := false }, p1, effs) ∧
      ∀ f, Eff.writeArchive f ∉ effs := by
  by_cases hv : 32200 ≤ env.qgisVersionInt
  · have hm : memory_layers (createAttachedFile env p "layers.mldata") = [] := h2
    refine ⟨createAttachedFile env p "layers.mldata",
      [Eff.createAttachedFile "layers.mldata",
       Eff.logMsg ("Saving memory layers to " ++
         memory_layer_file env (createAttachedFile env p "layers.mldata"))],
      ?_, ?_⟩
    · unfold save_data
      simp [h1, hv, hm]
    · intro f
      simp
  · refine ⟨p,
      [Eff.logMsg ("Saving memory layers to " ++ memory_layer_file env p)],
      ?_, ?_⟩
    · unfold save_data
      simp [h1, hv, h2]
    · intro f
      simp

/-- Witness for C9: dirty state, project with no layers — the save
completes with no archive write and a Clean state. -/
theorem save_empty_layers_witness :
    ∃ p1 effs, save_data envW dirtyS projEmpty =
      Except.ok (⟨false, []⟩, p1, effs) ∧
      ∀ f, Eff.writeArchive f ∉ effs :=
  save_empty_layers envW dirtyS projEmpty rfl rfl

/-- Claim C10: with no project file name the archive-location lookup
returns the empty string, and a load request performs no read (the
nonexistent-file branch is taken, producing no effects) while terminating
normally. -/
theorem load_no_filename (env : Env) (s : SaverState) (p : ProjectState)
    (h1 : p.fileName = "") (h2 : env.fileExists "" = false) :
    memory_layer_file env p = "" ∧
    load_data env s p =
      Except.ok ({ s with has_modified_layers := false }, []) := by
  have hm : memory_layer_file env p = "" := by
    unfold memory_layer_file
    simp [h1]
  refine ⟨hm, ?_⟩
  unfold load_data
  simp [hm, h2]

/-- Witness for C10: a never-saved project (empty file name) on a recent
host — lookup returns the empty string and the load is a silent no-op. -/
theorem load_no_filename_witness :
    memory_layer_file envN projN = "" ∧
    load_data envN dirtyS projN = Except.ok (⟨false, []⟩, []) :=
  load_no_filename envN dirtyS projN rfl rfl

/-- Claim C3: connecting an eligible layer wires every one of the six
mutation-notification kinds, and delivering a wired notification drives
the coordinator to Dirty from any state (in particular from Clean). -/
theorem mutation_sets_dirty (l : Layer) (s : SaverState) (k : MutationKind)
    (p : ProjectState) (h : is_saved_layer l = true) :
    (l.id, k) ∈ (connect_layer l s).connections ∧
    ∀ s2 : SaverState, (l.id, k) ∈ s2.connections →
      (fire_mutation l.id k s2 p).1.has_modified_layers = true := by
  constructor
  · unfold connect_layer
    simp only [h, if_true]
    cases k <;> simp [layerConnections]
  · intro s2 hmem
    unfold fire_mutation
    simp [hmem, set_project_dirty]

/-- Witness for C3: the eligible layer `layerW` gets its features-added
signal wired, and delivering that signal while Clean yields Dirty. -/
theorem mutation_sets_dirty_witness :
    (1, MutationKind.featuresAdded) ∈ (connect_layer layerW cleanS).connections ∧
    (fire_mutation 1 MutationKind.featuresAdded
      ⟨false, [(1, MutationKind.featuresAdded)]⟩ projW).1.has_modified_layers
      = true :=
  ⟨(mutation_sets_dirty layerW cleanS MutationKind.featuresAdded projW rfl).1,
   (mutation_sets_dirty layerW cleanS MutationKind.featuresAdded projW rfl).2
     ⟨false, [(1, MutationKind.featuresAdded)]⟩ (by decide)⟩

/-- Claim C4, evaluated at the failing input: adding the eligible layer
`layerW` does drive a Clean coordinator to Dirty (the `layerWasAdded`
signal is wired to `connect_layer`), but removing it reaches no handler
— `attach` wires no removal signal, and `disconnect_layer` runs only at
plugin unload — so the removal event leaves the Clean coordinator state
entirely unchanged: the flag stays false, contrary to the claim (and to
the comment inside `disconnect_layer` itself). -/
theorem layer_removal_not_dispatched :
    (on_layer_added layerW cleanS).has_modified_layers = true ∧
    on_layer_removed layerW cleanS = cleanS ∧
    (on_layer_removed layerW cleanS).has_modified_layers = false :=
  ⟨rfl, rfl, rfl⟩

/-- Counterexample to claim C5: the sidecar artifact for the project
exists (`fileExists` is true on its path) yet the load request invokes no
Reader — the eligible-layer set is empty, so `load_data` only logs. -/
theorem load_reader_skipped_counterexample :
    envW.fileExists (memory_layer_file envW projNoEligible) = true ∧
    load_data envW cleanS projNoEligible =
      Except.ok (cleanS,
        [Eff.logMsg "Loading memory layers from proj.qgs.mldata"]) :=
  ⟨rfl, rfl⟩

/-- Claim C5 (amended): on a load request the Archive Reader is invoked
exactly when the sidecar artifact exists and the eligible-layer set is
nonempty; the handler always completes normally, and silently (no
effects at all) when no artifact exists. -/
theorem load_reader_invocation (env : Env) (s : SaverState)
    (p : ProjectState) :
    ∃ s2 effs, load_data env s p = Except.ok (s2, effs) ∧
      (Eff.readArchive (memory_layer_file env p) ∈ effs ↔
        env.fileExists (memory_layer_file env p) = true ∧
        memory_layers p ≠ []) ∧
      (env.fileExists (memory_layer_file env p) = false → effs = []) := by
  by_cases h1 : env.fileExists (memory_layer_file env p) = true
  · by_cases h2 : (memory_layers p).isEmpty = true
    · refine ⟨{ s with has_modified_layers := false },
        [Eff.logMsg ("Loading memory layers from " ++ memory_layer_file env p)],
        ?_, ?_, ?_⟩
      · unfold load_data
        simp only [h1, h2, if_true]
      · simp [h1, List.isEmpty_iff.mp h2]
      · intro hc
        rw [hc] at h1
        exact absurd h1 Bool.false_ne_true
    · have hne : memory_layers p ≠ [] := fun hc => h2 (by simp [hc])
      by_cases h3 : env.readerRaises = true
      · refine ⟨{ s with has_modified_layers := false },
          [Eff.logMsg ("Loading memory layers from " ++ memory_layer_file env p),
           Eff.readArchive (memory_layer_file env p),
           Eff.messageBox "Error reloading memory layers"], ?_, ?_, ?_⟩
        · unfold load_data
          simp only [h1, h2, h3, if_true, if_false, Bool.false_eq_true]
        · simp [h1, hne]
        · intro hc
          rw [hc] at h1
          exact absurd h1 Bool.false_ne_true
      · refine ⟨{ s with has_modified_layers := false },
          [Eff.logMsg ("Loading memory layers from " ++ memory_layer_file env p),
           Eff.readArchive (memory_layer_file env p)], ?_, ?_, ?_⟩
        · unfold load_data
          simp only [h1, h2, h3, if_true, if_false, Bool.false_eq_true]
        · simp [h1, hne]
        · intro hc
          rw [hc] at h1
          exact absurd h1 Bool.false_ne_true
  · refine ⟨{ s with has_modified_layers := false }, [], ?_, ?_, fun _ => rfl⟩
    · unfold load_data
      simp only [h1, if_false, Bool.false_eq_true]
    · simp [h1]

/-- Counterexample to claim C6: the state is Dirty, an eligible layer is
present and the Writer raises — `save_data` has no try/except, so the
error escapes the save handler across the lifecycle-event boundary
instead of being caught and reported. -/
theorem save_error_escapes_counterexample :
    save_data envWr dirtyS projW = Except.error "Writer raised" :=
  rfl

/-- Claim C6 (amended): only the load path catches failures at the
handler boundary — `load_data` always returns normally, reporting Reader
failures through the message box — while the save path does not: a
raising Writer (Dirty state, nonempty eligible set) escapes `save_data`
as an error. -/
theorem error_boundary_asymmetry (env : Env) (s : SaverState)
    (p : ProjectState) :
    (∃ r, load_data env s p = Except.ok r) ∧
    (s.has_modified_layers = true → memory_layers p ≠ [] →
      env.writerRaises = true →
      save_data env s p = Except.error "Writer raised") := by
  constructor
  · obtain ⟨effs, heq⟩ := load_data_shape env s p
    exact ⟨_, heq⟩
  · intro h1 h2 h3
    unfold save_data
    by_cases hv : 32200 ≤ env.qgisVersionInt
    · have hm : memory_layers (createAttachedFile env p "layers.mldata") =
        memory_layers p := rfl
      simp [h1, hv, h3, hm, h2]
    · simp [h1, hv, h3, h2]

/-- Witness for C6: at the concrete raising-Writer input, the load request
still completes normally while the save request escapes with the error. -/
theorem error_boundary_asymmetry_witness :
    (∃ r, load_data envWr dirtyS projW = Except.ok r) ∧
    save_data envWr dirtyS projW = Except.error "Writer raised" :=
  ⟨(error_boundary_asymmetry envWr dirtyS projW).1,
   (error_boundary_asymmetry envWr dirtyS projW).2 rfl (by decide) rfl⟩

/-- If some member of the list matches the suffix test, the scan does
not return `none`. -/
theorem findAttachment_ne_none (l : List String) (a : String)
    (ha : a ∈ l) (hsa : strEndsWith a "layers.mldata" = true) :
    findAttachment l ≠ none := by
  induction l with
  | nil => exact absurd ha (List.not_mem_nil a)
  | cons x xs ih =>
    unfold findAttachment
    by_cases hx : strEndsWith x "layers.mldata" = true
    · simp [hx]
    · simp only [hx, if_false, Bool.false_eq_true]
      rcases List.mem_cons.mp ha with hax | hax
      · exact absurd (hax ▸ hsa) hx
      · exact ih hax

/-- Claim C7: with a project file name set and an attachment-capable host,
the archive location is an embedded attachment ending in `layers.mldata`
whenever one is present, and only when none is present does it fall back
to the `<project file name>.mldata` sidecar path. -/
theorem archive_location_attachment_first (env : Env) (p : ProjectState)
    (h1 : ¬p.fileName = "") (h2 : 32200 ≤ env.qgisVersionInt) :
    ((∃ a ∈ p.attachedFiles, strEndsWith a "layers.mldata" = true) →
      memory_layer_file env p ∈ p.attachedFiles ∧
      strEndsWith (memory_layer_file env p) "layers.mldata" = true) ∧
    ((∀ a ∈ p.attachedFiles, strEndsWith a "layers.mldata" = false) →
      memory_layer_file env p = p.fileName ++ ".mldata") := by
  constructor
  · intro hex
    unfold memory_layer_file
    simp only [h1, h2, if_false, if_true]
    cases hfa : findAttachment p.attachedFiles with
    | none =>
        exfalso
        obtain ⟨a, ha, hsa⟩ := hex
        exact absurd hfa (findAttachment_ne_none p.attachedFiles a ha hsa)
    | some b =>
        have hb := findAttachment_mem p.attachedFiles b hfa
        exact ⟨hb.1, hb.2⟩
  · intro hall
    unfold memory_layer_file
    simp only [h1, h2, if_false, if_true]
    rw [findAttachment_eq_none p.attachedFiles hall]

/-- Witness for C7: on an attachment-capable host, a project holding an
embedded `x/layers.mldata` attachment resolves to it, and one with no
matching attachment falls back to `p.qgs.mldata`. -/
theorem archive_location_attachment_first_witness :
    (memory_layer_file envV projAtt ∈ projAtt.attachedFiles ∧
      strEndsWith (memory_layer_file envV projAtt) "layers.mldata" = true) ∧
    memory_layer_file envV projNoAtt = projNoAtt.fileName ++ ".mldata" :=
  ⟨(archive_location_attachment_first envV projAtt (by decide) (by decide)).1
      ⟨"x/layers.mldata", by decide, by decide⟩,
   (archive_location_attachment_first envV projNoAtt (by decide) (by decide)).2
      (by decide)⟩
